import Mathlib

/-!
Verification of the bootstrap/network-configuration core of the
cluster-api-provider-proxmox repository, shallowly embedded in Lean.

The embedding follows `internal/service/vmservice/bootstrap.go` (reconciler,
assembler) and `pkg/cloudinit` (renderer).  External collaborators (the
cluster-state API, the secret store, the address-pool lookup, the MAC
extraction over Proxmox net-config lines, and the ISO injector) are modelled
as oracle fields of the scope structure, matching the spec's narrow-interface
treatment of them.  Strings stand for Go strings, `Option` for nil-able
pointers, `Except String` for Go's `(T, error)` returns, and association
lists for Go maps.
-/

namespace Capmox

/-- Per-interface network configuration record, from `cloudinit.NetworkConfigData`
(consumed by the renderer, produced by the assembler in bootstrap.go).  Empty
strings stand for absent optional fields, as in the Go zero value. -/
structure NetworkConfigData where
  macAddress : String := ""
  ipAddress : String := ""
  gateway : String := ""
  ipv6Address : String := ""
  gateway6 : String := ""
  dnsServers : List String := []
deriving Repr, DecidableEq, Inhabited

/-- Modelled from the spec: the typed validation errors of the renderer
(`pkg/cloudinit/network.go` is not among the provided sources; its test file
`network_test.go` names ErrMissingNetworkConfigData, ErrMissingMacAddress,
ErrMissingIPAddress, ErrMalformedIPAddress and ErrMissingGateway). -/
inductive NetworkConfigError where
  | missingNetworkConfigData
  | missingMacAddress
  | missingIPAddress
  | malformedIPAddress
  | missingGateway
deriving Repr, DecidableEq

/-- Modelled from the spec: an address string is in CIDR form when it carries a
slash-separated prefix length (spec section 4.3: a bare address without a
slash-length suffix is malformed). -/
def hasCIDRSlash (s : String) : Bool :=
  s.data.contains '/'

/-- Modelled from the spec: per-device validation of the renderer (spec section
4.3).  The MAC check comes first, then the missing-address check, then per
address family the malformed-address and missing-gateway checks; the first
violated rule is returned (fail-fast). -/
def validateNic (d : NetworkConfigData) : Option NetworkConfigError :=
  if d.macAddress == "" then some .missingMacAddress
  else if d.ipAddress == "" && d.ipv6Address == "" then some .missingIPAddress
  else if d.ipAddress != "" && !(hasCIDRSlash d.ipAddress) then some .malformedIPAddress
  else if d.ipAddress != "" && d.gateway == "" then some .missingGateway
  else if d.ipv6Address != "" && !(hasCIDRSlash d.ipv6Address) then some .malformedIPAddress
  else if d.ipv6Address != "" && d.gateway6 == "" then some .missingGateway
  else none

/-- Modelled from the spec: whole-input validation of the renderer (spec section
4.3): an empty device list is refused, otherwise the devices are validated in
input order and the first violation wins. -/
def validateNics (nics : List NetworkConfigData) : Option NetworkConfigError :=
  if nics.isEmpty then some .missingNetworkConfigData
  else nics.findSome? validateNic

/-- Modelled from the spec: the lines rendered for one interface entry (spec
section 4.3 rendering rules, byte-for-byte against the expected documents in
`pkg/cloudinit/network_test.go`): sequential interface names from the base
name eth, a match block on the MAC, dhcp4 disabled with the quoted literal,
one address and one default route per configured family (IPv4 before IPv6),
and a nameserver block omitted when the DNS list is empty. -/
def nicLines (i : Nat) (d : NetworkConfigData) : List String :=
  ["    eth" ++ toString i ++ ":",
   "      match:",
   "        macaddress: " ++ d.macAddress,
   "      dhcp4: 'no'",
   "      addresses:"]
  ++ (if d.ipAddress == "" then [] else ["        - " ++ d.ipAddress])
  ++ (if d.ipv6Address == "" then [] else ["        - " ++ d.ipv6Address])
  ++ ["      routes:"]
  ++ (if d.ipAddress == "" then [] else
        ["        - to: default", "          via: " ++ d.gateway])
  ++ (if d.ipv6Address == "" then [] else
        ["        - to: default", "          via: " ++ d.gateway6])
  ++ (if d.dnsServers.isEmpty then [] else
        ["      nameservers:", "        addresses:"]
          ++ d.dnsServers.map (fun x => "          - " ++ x))

/-- Modelled from the spec: the rendered document body (spec section 4.3 output
format): fixed header with version marker and renderer identifier, then the
interface entries in input order. -/
def renderBody (nics : List NetworkConfigData) : String :=
  String.intercalate "\n"
    (["network:", "  version: 2", "  renderer: networkd", "  ethernets:"]
      ++ (nics.enum.map (fun p => nicLines p.1 p.2)).flatten)

/-- Modelled from the spec: `NetworkConfig.Render` of `pkg/cloudinit` (spec
section 4.3): validate the ordered device list, then serialize it; any
validation error aborts with no document. -/
def renderNetworkConfig (nics : List NetworkConfigData) :
    Except NetworkConfigError String :=
  match validateNics nics with
  | some e => Except.error e
  | none => Except.ok (renderBody nics)

/-- Cluster-wide network settings read by the assembler, from
`ProxmoxClusterSpec` (api/v1alpha1): the presence of the IPv4 and IPv6 pool
configurations (nil-able pointers in Go, here booleans for presence) and the
cluster-wide DNS server list. -/
structure ClusterNetworkSpec where
  ipv4Config : Bool
  ipv6Config : Bool
  dnsServers : List String
deriving Repr, DecidableEq

/-- An allocated address object, as read by `findIPAddress` (IPAddressSpec of
the ipam API): address, prefix length, gateway. -/
structure IPAddrSpec where
  address : String
  prefixLen : Nat
  gateway : String
deriving Repr, DecidableEq

/-- One additional device spec of the machine's network configuration, from
`AdditionalNetworkDevice` (api/v1alpha1): the device base name, whether an
IPv4/IPv6 pool reference is set, and the per-device DNS override list. -/
structure AdditionalDevice where
  name : String
  ipv4PoolRef : Bool
  ipv6PoolRef : Bool
  dnsServers : List String
deriving Repr, DecidableEq

/-- The machine's network spec, from `NetworkSpec` (api/v1alpha1): the list of
additional device specs, in configured order. -/
structure NetworkSpec where
  additionalDevices : List AdditionalDevice
deriving Repr, DecidableEq

/-- Condition reasons this subsystem writes through `conditions.MarkFalse`, from
api/v1alpha1 condition constants. -/
inductive CondReason where
  | waitingForStaticIPAllocation
  | cloningFailed
  | vmProvisionFailed
deriving Repr, DecidableEq

/-- Condition severities (clusterv1.ConditionSeverity). -/
inductive CondSeverity where
  | error
  | warning
  | info
deriving Repr, DecidableEq

/-- A machine-readable condition record set on the VMProvisionedCondition of
the machine status. -/
structure Condition where
  reason : CondReason
  severity : CondSeverity
  message : String
deriving Repr, DecidableEq

/-- The part of the ProxmoxMachine status owned by this subsystem: the
idempotency guard `Status.BootstrapDataProvided` (a nil-able *bool in Go) and
the VMProvisionedCondition record. -/
structure MachineStatus where
  bootstrapDataProvided : Option Bool
  vmProvisionedCondition : Option Condition
deriving Repr, DecidableEq

/-- Embedding of `conditions.MarkFalse` on the VMProvisionedCondition: replaces
the condition record with the given reason, severity and message.  It never
touches the bootstrapDataProvided flag. -/
def markFalse (st : MachineStatus) (r : CondReason) (sev : CondSeverity)
    (msg : String) : MachineStatus :=
  { st with vmProvisionedCondition := some { reason := r, severity := sev, message := msg } }

/-- Collaborator calls observable from `reconcileBootstrapData`: the secret
fetch (`GetBootstrapSecret`), the assembler invocation
(`getNetworkConfigData`) and the ISO injection (`injector.Inject`). -/
inductive Event where
  | secretFetch
  | assemble
  | inject
deriving Repr, DecidableEq

/-- The machine scope handed to `reconcileBootstrapData`, with its external
collaborators embedded as oracle fields: `hasIPAddress` is the structural
`machineHasIPAddress` check, `nets` the merged live interface map
(`VirtualMachineConfig.MergeNets()`), `extractMAC` the textual MAC extraction
over one net-config line, `findIPAddr` the address lookup, `getSecret` the
result of fetching the referenced bootstrap secret (its data is a key-value
map), and `injectOutcome` the error, if any, of the ISO injector. -/
structure MachineScope where
  status : MachineStatus
  hasIPAddress : Bool
  nets : List (String × String)
  extractMAC : String → String
  dataSecretName : Option String
  getSecret : Except String (List (String × String))
  cluster : ClusterNetworkSpec
  network : Option NetworkSpec
  findIPAddr : String → Except String IPAddrSpec
  injectOutcome : Option String
  machineName : String
  biosUUID : String

/-- Modelled from the spec: the helper `IPAddressWithPrefix` (not among the
provided sources) joins an allocated address and its prefix length in CIDR
form, address slash length. -/
def ipAddrWithPrefixLen (addr : String) (p : Nat) : String :=
  addr ++ "/" ++ toString p

/-- Modelled from the spec: the configuration constant `DefaultSuffix`
(api/v1alpha1, not among the provided sources) marking IPv4 address-lookup
keys; the IPv6 marker appends 6 to it (bootstrap.go line 225). -/
def DefaultSuffix : String := "inet"

/-- Modelled from the spec: the vmservice constant naming the default network
device's IPv4 lookup key (base device net0 with the IPv4 marker). -/
def DefaultNetworkDeviceIPV4 : String := "net0-inet"

/-- Modelled from the spec: the vmservice constant naming the default network
device's IPv6 lookup key (base device net0 with the IPv6 marker). -/
def DefaultNetworkDeviceIPV6 : String := "net0-inet6"

/-- Embedding of `strings.Cut(device, "-")` as used in
`getNetworkConfigDataForDevice`: the part of the device name before the first
dash (the whole name when there is no dash). -/
def cutDeviceName (device : String) : String :=
  String.mk (device.data.takeWhile (fun c => c != '-'))

/-- Embedding of the Go map read `nets[formattedDevice]`: association-list
lookup defaulting to the empty string for a missing key. -/
def lookupNet (nets : List (String × String)) (d : String) : String :=
  (nets.lookup d).getD ""

/-- Embedding of `getNetworkConfigDataForDevice` (bootstrap.go lines 144-170):
strip any dash suffix from the device name, extract the MAC from the merged
interface map under the stripped name (failing when it is empty), look up the
allocated address under the full (suffixed) name, and build a record carrying
the cluster-wide DNS list. -/
def getNetworkConfigDataForDevice (s : MachineScope) (device : String) :
    Except String NetworkConfigData :=
  let formattedDevice := cutDeviceName device
  let macAddress := s.extractMAC (lookupNet s.nets formattedDevice)
  if macAddress.length == 0 then
    Except.error "unable to extract mac address"
  else
    match s.findIPAddr device with
    | Except.error e =>
        Except.error ("unable to find IPAddress, device=" ++ device ++ ": " ++ e)
    | Except.ok ipAddr =>
        let dns := s.cluster.dnsServers
        let ip := ipAddrWithPrefixLen ipAddr.address ipAddr.prefixLen
        let gw := ipAddr.gateway
        Except.ok { macAddress := macAddress, ipAddress := ip, gateway := gw,
                    ipv6Address := "", gateway6 := "", dnsServers := dns }

/-- Embedding of `getDefaultNetworkDevice` (bootstrap.go lines 172-203): the
IPv4 default device is resolved when the cluster has an IPv4 pool, the IPv6
default device when it has an IPv6 pool; with both, an IPv4 record without a
MAC is replaced by the IPv6 one, differing MACs are a fatal inconsistency,
and otherwise the IPv6 address and gateway are folded into the IPv4 record. -/
def getDefaultNetworkDevice (s : MachineScope) :
    Except String (List NetworkConfigData) :=
  let step4 : Except String NetworkConfigData :=
    if s.cluster.ipv4Config then
      match getNetworkConfigDataForDevice s DefaultNetworkDeviceIPV4 with
      | Except.error e =>
          Except.error ("unable to get network config data for device="
            ++ DefaultNetworkDeviceIPV4 ++ ": " ++ e)
      | Except.ok conf => Except.ok conf
    else Except.ok {}
  match step4 with
  | Except.error e => Except.error e
  | Except.ok config =>
    if s.cluster.ipv6Config then
      match getNetworkConfigDataForDevice s DefaultNetworkDeviceIPV6 with
      | Except.error e =>
          Except.error ("unable to get network config data for device="
            ++ DefaultNetworkDeviceIPV6 ++ ": " ++ e)
      | Except.ok conf =>
          if config.macAddress.length == 0 then
            Except.ok [conf]
          else if config.macAddress != conf.macAddress then
            Except.error "default network device ipv4 and ipv6 have different mac addresses"
          else
            Except.ok [{ config with ipv6Address := conf.ipAddress, gateway6 := conf.gateway }]
    else Except.ok [config]

/-- Embedding of the body of the loop of `getAdditionalNetworkDevices`
(bootstrap.go lines 209-244) for one additional device spec.  The source
first resolves the IPv4 lookup key and, notably, writes the per-device DNS
override into `config` right before overwriting the whole of `config` with
the resolved record (`config = conf`), so that the override written in the
IPv4 branch is discarded; the IPv6 branch writes the override again before
the merge switch. -/
def additionalDeviceConfig (s : MachineScope) (nic : AdditionalDevice) :
    Except String NetworkConfigData :=
  let config : NetworkConfigData := {}
  let v4step : Except String NetworkConfigData :=
    if nic.ipv4PoolRef then
      let device := nic.name ++ "-" ++ DefaultSuffix
      match getNetworkConfigDataForDevice s device with
      | Except.error e =>
          Except.error ("unable to get network config data for device=" ++ device ++ ": " ++ e)
      | Except.ok conf =>
          let config := if nic.dnsServers.length != 0
            then { config with dnsServers := nic.dnsServers } else config
          let config := conf
          Except.ok config
    else Except.ok config
  match v4step with
  | Except.error e => Except.error e
  | Except.ok config =>
    if nic.ipv6PoolRef then
      let suffix := DefaultSuffix ++ "6"
      let device := nic.name ++ "-" ++ suffix
      match getNetworkConfigDataForDevice s device with
      | Except.error e =>
          Except.error ("unable to get network config data for device=" ++ device ++ ": " ++ e)
      | Except.ok conf =>
          let config := if nic.dnsServers.length != 0
            then { config with dnsServers := nic.dnsServers } else config
          if config.macAddress.length == 0 then
            Except.ok conf
          else if config.macAddress != conf.macAddress then
            Except.error "additional network device ipv4 and ipv6 have different mac addresses"
          else
            Except.ok { config with ipv6Address := conf.ipAddress, gateway6 := conf.gateway }
    else Except.ok config

/-- The loop of `getAdditionalNetworkDevices` (bootstrap.go lines 209-249):
devices are processed in configured order, any error aborts the whole call,
and a resulting record with an empty MAC is dropped rather than appended. -/
def additionalDevicesLoop (s : MachineScope) :
    List AdditionalDevice → Except String (List NetworkConfigData)
  | [] => Except.ok []
  | nic :: rest =>
    match additionalDeviceConfig s nic with
    | Except.error e => Except.error e
    | Except.ok config =>
      match additionalDevicesLoop s rest with
      | Except.error e => Except.error e
      | Except.ok others =>
          Except.ok ((if config.macAddress.length > 0 then [config] else []) ++ others)

/-- Embedding of `getAdditionalNetworkDevices` (bootstrap.go lines 205-251). -/
def getAdditionalNetworkDevices (s : MachineScope) (network : NetworkSpec) :
    Except String (List NetworkConfigData) :=
  additionalDevicesLoop s network.additionalDevices

/-- Embedding of `getNetworkConfigData` (bootstrap.go lines 124-142): default
device records first, then the additional devices in order; any failure
discards all partial results. -/
def getNetworkConfigData (s : MachineScope) :
    Except String (List NetworkConfigData) :=
  let network := s.network.getD { additionalDevices := [] }
  match getDefaultNetworkDevice s with
  | Except.error e => Except.error e
  | Except.ok defaultConfig =>
    match getAdditionalNetworkDevices s network with
    | Except.error e => Except.error e
    | Except.ok additionalConfig => Except.ok (defaultConfig ++ additionalConfig)

/-- Embedding of `getBootstrapData` (bootstrap.go lines 105-122): fails when
the machine has no bootstrap data secret reference, when the secret cannot be
fetched, or when the secret data lacks the value key. -/
def getBootstrapData (s : MachineScope) : Except String String :=
  match s.dataSecretName with
  | none => Except.error "machine has no bootstrap data"
  | some _ =>
    match s.getSecret with
    | Except.error e => Except.error ("failed to retrieve bootstrap data secret: " ++ e)
    | Except.ok data =>
      match data.lookup "value" with
      | none => Except.error "error retrieving bootstrap data: secret value key is missing"
      | some v => Except.ok v

/-- Embedding of `vmHasMacAddresses` (bootstrap.go lines 253-264): false when
the merged interface map is empty, false when the MAC extracted for any of
its keys is empty, true otherwise. -/
def vmHasMacAddresses (s : MachineScope) : Bool :=
  if s.nets.length == 0 then false
  else s.nets.all (fun p => !(s.extractMAC (lookupNet s.nets p.1) == ""))

/-- One pass outcome of `reconcileBootstrapData`: the returned pair
(requeue, err), the machine status after the pass, and the collaborator
calls made during the pass. -/
structure ReconcileResult where
  requeue : Bool
  err : Option String
  status : MachineStatus
  events : List Event
deriving Repr, DecidableEq

/-- Embedding of `reconcileBootstrapData` (bootstrap.go lines 37-86), one pass:
guard short-circuit, structural IP-address check, MAC presence check, secret
retrieval, assembler invocation, injection, and finally setting the guard. -/
def reconcileBootstrapData (s : MachineScope) : ReconcileResult :=
  if s.status.bootstrapDataProvided.getD false then
    { requeue := false, err := none, status := s.status, events := [] }
  else if !s.hasIPAddress then
    { requeue := true, err := none,
      status := markFalse s.status CondReason.waitingForStaticIPAllocation
        CondSeverity.warning "no ip address",
      events := [] }
  else if !(vmHasMacAddresses s) then
    { requeue := true, err := none, status := s.status, events := [] }
  else
    let fetchEvents := if s.dataSecretName.isSome then [Event.secretFetch] else []
    match getBootstrapData s with
    | Except.error e =>
      { requeue := false, err := some e,
        status := markFalse s.status CondReason.cloningFailed CondSeverity.warning e,
        events := fetchEvents }
    | Except.ok _bootstrapData =>
      match getNetworkConfigData s with
      | Except.error e =>
        { requeue := false, err := some e,
          status := markFalse s.status CondReason.waitingForStaticIPAllocation
            CondSeverity.warning e,
          events := fetchEvents ++ [Event.assemble] }
      | Except.ok _nicData =>
        match s.injectOutcome with
        | some e =>
          { requeue := false, err := some ("cloud-init iso inject failed: " ++ e),
            status := markFalse s.status CondReason.vmProvisionFailed
              CondSeverity.warning e,
            events := fetchEvents ++ [Event.assemble, Event.inject] }
        | none =>
          { requeue := false, err := none,
            status := { s.status with bootstrapDataProvided := some true },
            events := fetchEvents ++ [Event.assemble, Event.inject] }

/-- The scope after one reconcile pass: only the machine status changes; the
collaborators and the VM-side inputs are unchanged between passes. -/
def applyReconcile (s : MachineScope) : MachineScope :=
  { s with status := (reconcileBootstrapData s).status }

/-- Repeated invocation of the reconcile pass, feeding back the status. -/
def iterateReconcile : Nat → MachineScope → MachineScope
  | 0, s => s
  | n + 1, s => iterateReconcile n (applyReconcile s)

/-! ## Concrete scopes used to instantiate the theorems -/

/-- A machine scope on the full success path: guard unset, address allocated,
one interface with a MAC, a fetchable secret with a value key, an IPv4-only
cluster, no additional devices, and a succeeding injector. -/
def sampleScope : MachineScope :=
  { status := { bootstrapDataProvided := none, vmProvisionedCondition := none },
    hasIPAddress := true,
    nets := [("net0", "92:60:a0:5b:22:c2")],
    extractMAC := fun line => line,
    dataSecretName := some "bootstrap-secret",
    getSecret := Except.ok [("value", "cloud-init-user-data")],
    cluster := { ipv4Config := true, ipv6Config := false,
                 dnsServers := ["8.8.8.8", "8.8.4.4"] },
    network := none,
    findIPAddr := fun _ => Except.ok
      { address := "10.10.10.12", prefixLen := 24, gateway := "10.10.10.1" },
    injectOutcome := none,
    machineName := "machine-1",
    biosUUID := "uuid-1" }

/-- The sample scope after a full success: the idempotency guard is true. -/
def providedScope : MachineScope :=
  { sampleScope with
    status := { bootstrapDataProvided := some true, vmProvisionedCondition := none } }

/-! ## Helper lemmas -/

/-- A list with a member falsifying the predicate fails `List.all`. -/
theorem list_all_false_of_mem {α : Type} (p : α → Bool) {l : List α} {x : α}
    (hx : x ∈ l) (hpx : p x = false) : l.all p = false := by
  induction l with
  | nil => cases hx
  | cons a as ih =>
    rcases List.mem_cons.mp hx with rfl | hmem
    · simp [List.all_cons, hpx]
    · simp [List.all_cons, ih hmem]

/-- A record the device resolver returns always carries a non-empty MAC
address (the resolver fails first otherwise). -/
theorem resolver_mac_nonempty (s : MachineScope) (d : String)
    {c : NetworkConfigData} (h : getNetworkConfigDataForDevice s d = Except.ok c) :
    (c.macAddress.length == 0) = false := by
  unfold getNetworkConfigDataForDevice at h
  by_cases hm : ((s.extractMAC (lookupNet s.nets (cutDeviceName d))).length == 0) = true
  · simp [hm] at h
  · rw [Bool.not_eq_true] at hm
    cases hfa : s.findIPAddr d with
    | error e => simp [hm, hfa] at h
    | ok a =>
      simp only [hm, Bool.false_eq_true, if_false, hfa, Except.ok.injEq] at h
      rw [← h]
      exact hm

/-! ## The claims -/

/-- C1: when the idempotency guard BootstrapDataProvided is already true,
reconcileBootstrapData returns (requeue = false, err = nil) immediately,
performs no collaborator call and changes no state, and iterating the pass
any number of times leaves the scope fixed with the same outcome. -/
theorem C1_guard_short_circuit (s : MachineScope)
    (h : s.status.bootstrapDataProvided.getD false = true) :
    ∀ n : Nat,
      iterateReconcile n s = s ∧
      reconcileBootstrapData (iterateReconcile n s) =
        { requeue := false, err := none, status := s.status, events := [] } := by
  have hstep : reconcileBootstrapData s =
      { requeue := false, err := none, status := s.status, events := [] } := by
    unfold reconcileBootstrapData
    simp [h]
  have happ : applyReconcile s = s := by
    unfold applyReconcile
    rw [hstep]
  intro n
  induction n with
  | zero => exact ⟨rfl, hstep⟩
  | succ n ih =>
    refine ⟨?_, ?_⟩
    · show iterateReconcile n (applyReconcile s) = s
      rw [happ]; exact ih.1
    · show reconcileBootstrapData (iterateReconcile n (applyReconcile s)) = _
      rw [happ]; exact ih.2

/-- Witness for C1 at a concrete provided scope, iterated three times. -/
theorem C1_guard_short_circuit_witness :
    providedScope.status.bootstrapDataProvided.getD false = true ∧
    (iterateReconcile 3 providedScope = providedScope ∧
     reconcileBootstrapData (iterateReconcile 3 providedScope) =
       { requeue := false, err := none, status := providedScope.status, events := [] }) :=
  ⟨rfl, C1_guard_short_circuit providedScope rfl 3⟩

/-- C7: when the guard is false and the machine has no usable IP address,
reconcileBootstrapData marks the waiting-for-static-IP-allocation condition
with warning severity and returns (requeue = true, err = nil) with no
collaborator call. -/
theorem C7_waiting_for_ip_allocation (s : MachineScope)
    (hg : s.status.bootstrapDataProvided.getD false = false)
    (hip : s.hasIPAddress = false) :
    reconcileBootstrapData s =
      { requeue := true, err := none,
        status := markFalse s.status CondReason.waitingForStaticIPAllocation
          CondSeverity.warning "no ip address",
        events := [] } := by
  unfold reconcileBootstrapData
  simp [hg, hip]

/-- Witness for C7 at a concrete scope with no IP address yet. -/
theorem C7_waiting_for_ip_allocation_witness :
    ({ sampleScope with hasIPAddress := false } :
        MachineScope).status.bootstrapDataProvided.getD false = false ∧
    ({ sampleScope with hasIPAddress := false } : MachineScope).hasIPAddress = false ∧
    reconcileBootstrapData { sampleScope with hasIPAddress := false } =
      { requeue := true, err := none,
        status := markFalse sampleScope.status CondReason.waitingForStaticIPAllocation
          CondSeverity.warning "no ip address",
        events := [] } :=
  ⟨rfl, rfl, C7_waiting_for_ip_allocation { sampleScope with hasIPAddress := false } rfl rfl⟩

/-- C8: when the guard is false, the machine has an IP address and some
discovered network device yields an empty extracted MAC, the pass returns
(requeue = true, err = nil) and leaves the machine status (conditions
included) unchanged, with no collaborator call. -/
theorem C8_missing_mac_no_condition (s : MachineScope)
    (hg : s.status.bootstrapDataProvided.getD false = false)
    (hip : s.hasIPAddress = true)
    (dev : String) (line : String) (hmem : (dev, line) ∈ s.nets)
    (hmac : s.extractMAC (lookupNet s.nets dev) = "") :
    reconcileBootstrapData s =
      { requeue := true, err := none, status := s.status, events := [] } := by
  have hvm : vmHasMacAddresses s = false := by
    unfold vmHasMacAddresses
    by_cases h0 : (s.nets.length == 0) = true
    · simp [h0]
    · rw [Bool.not_eq_true] at h0
      rw [h0]
      simp only [Bool.false_eq_true, if_false]
      exact list_all_false_of_mem _ hmem (by simp [hmac])
  unfold reconcileBootstrapData
  simp [hg, hip, hvm]

/-- Witness for C8: a concrete scope whose single interface line yields an
empty MAC. -/
theorem C8_missing_mac_no_condition_witness :
    ({ sampleScope with nets := [("net0", "")] } :
        MachineScope).status.bootstrapDataProvided.getD false = false ∧
    ({ sampleScope with nets := [("net0", "")] } : MachineScope).hasIPAddress = true ∧
    ("net0", "") ∈ ({ sampleScope with nets := [("net0", "")] } : MachineScope).nets ∧
    reconcileBootstrapData { sampleScope with nets := [("net0", "")] } =
      { requeue := true, err := none, status := sampleScope.status, events := [] } :=
  ⟨rfl, rfl, by simp,
   C8_missing_mac_no_condition { sampleScope with nets := [("net0", "")] }
     rfl rfl "net0" "" (by simp) rfl⟩

/-- C10: when the merged live interface map is empty, vmHasMacAddresses is
false even though no individual device lacks a MAC (vacuously there is none),
and reconcileBootstrapData requeues with no error, exactly as for a missing
MAC address. -/
theorem C10_empty_interface_map (s : MachineScope)
    (hg : s.status.bootstrapDataProvided.getD false = false)
    (hip : s.hasIPAddress = true)
    (hnets : s.nets = []) :
    vmHasMacAddresses s = false ∧
    (∀ dev line, (dev, line) ∈ s.nets →
      s.extractMAC (lookupNet s.nets dev) ≠ "") ∧
    reconcileBootstrapData s =
      { requeue := true, err := none, status := s.status, events := [] } := by
  have hvm : vmHasMacAddresses s = false := by
    unfold vmHasMacAddresses
    simp [hnets]
  refine ⟨hvm, ?_, ?_⟩
  · intro dev line hmem
    rw [hnets] at hmem
    cases hmem
  · unfold reconcileBootstrapData
    simp [hg, hip, hvm]

/-- Witness for C10 at a concrete scope with an empty interface map. -/
theorem C10_empty_interface_map_witness :
    ({ sampleScope with nets := [] } :
        MachineScope).status.bootstrapDataProvided.getD false = false ∧
    ({ sampleScope with nets := [] } : MachineScope).nets = [] ∧
    (vmHasMacAddresses { sampleScope with nets := [] } = false ∧
     (∀ dev line, (dev, line) ∈ ({ sampleScope with nets := [] } : MachineScope).nets →
       ({ sampleScope with nets := [] } : MachineScope).extractMAC
         (lookupNet ({ sampleScope with nets := [] } : MachineScope).nets dev) ≠ "") ∧
     reconcileBootstrapData { sampleScope with nets := [] } =
       { requeue := true, err := none, status := sampleScope.status, events := [] }) :=
  ⟨rfl, rfl, C10_empty_interface_map { sampleScope with nets := [] } rfl rfl rfl⟩

/-- C5: across every pass of reconcileBootstrapData the BootstrapDataProvided
flag is never cleared by this subsystem; it changes only by becoming true on
the full-success path (injection succeeded and was invoked), in which case
the pass returns (requeue = false, err = nil); on every failure or requeue
path the flag is unchanged. -/
theorem C5_guard_set_only_on_success (s : MachineScope) :
    ((reconcileBootstrapData s).status.bootstrapDataProvided
        = s.status.bootstrapDataProvided ∨
      (reconcileBootstrapData s).status.bootstrapDataProvided = some true) ∧
    ((reconcileBootstrapData s).status.bootstrapDataProvided
        ≠ s.status.bootstrapDataProvided →
      (reconcileBootstrapData s).status.bootstrapDataProvided = some true ∧
      (reconcileBootstrapData s).requeue = false ∧
      (reconcileBootstrapData s).err = none ∧
      s.injectOutcome = none ∧
      Event.inject ∈ (reconcileBootstrapData s).events) ∧
    (((reconcileBootstrapData s).err ≠ none ∨
        (reconcileBootstrapData s).requeue = true) →
      (reconcileBootstrapData s).status.bootstrapDataProvided
        = s.status.bootstrapDataProvided) := by
  unfold reconcileBootstrapData
  split
  · simp
  · split
    · simp [markFalse]
    · split
      · simp
      · cases hb : getBootstrapData s with
        | error e => simp [hb, markFalse]
        | ok bd =>
          cases hn : getNetworkConfigData s with
          | error e => simp [hb, hn, markFalse]
          | ok nd =>
            cases hi : s.injectOutcome with
            | some e => simp [hb, hn, hi, markFalse]
            | none => simp [hb, hn, hi]

/-- Witness for C5 at the concrete success-path scope: the flag flips from
unset to true, with no requeue, no error, and an injection event. -/
theorem C5_guard_set_only_on_success_witness :
    (reconcileBootstrapData sampleScope).status.bootstrapDataProvided
      ≠ sampleScope.status.bootstrapDataProvided ∧
    ((reconcileBootstrapData sampleScope).status.bootstrapDataProvided = some true ∧
     (reconcileBootstrapData sampleScope).requeue = false ∧
     (reconcileBootstrapData sampleScope).err = none ∧
     sampleScope.injectOutcome = none ∧
     Event.inject ∈ (reconcileBootstrapData sampleScope).events) :=
  ⟨by decide, (C5_guard_set_only_on_success sampleScope).2.1 (by decide)⟩

/-- C6: when retrieval of the bootstrap payload fails, reconcileBootstrapData
marks the cloning-failed condition (warning severity) and returns
(requeue = false, err not nil); and getBootstrapData indeed fails in each of
the three cases: no secret reference, secret fetch failure, and a secret
without the value key. -/
theorem C6_payload_retrieval_failure (s : MachineScope)
    (hg : s.status.bootstrapDataProvided.getD false = false)
    (hip : s.hasIPAddress = true)
    (hmac : vmHasMacAddresses s = true)
    (e : String) (hb : getBootstrapData s = Except.error e) :
    reconcileBootstrapData s =
      { requeue := false, err := some e,
        status := markFalse s.status CondReason.cloningFailed CondSeverity.warning e,
        events := if s.dataSecretName.isSome then [Event.secretFetch] else [] } ∧
    (s.dataSecretName = none →
      getBootstrapData s = Except.error "machine has no bootstrap data") ∧
    (∀ n msg, s.dataSecretName = some n → s.getSecret = Except.error msg →
      getBootstrapData s =
        Except.error ("failed to retrieve bootstrap data secret: " ++ msg)) ∧
    (∀ n data, s.dataSecretName = some n → s.getSecret = Except.ok data →
      data.lookup "value" = none →
      getBootstrapData s =
        Except.error "error retrieving bootstrap data: secret value key is missing") := by
  refine ⟨?_, ?_, ?_, ?_⟩
  · unfold reconcileBootstrapData
    simp [hg, hip, hmac, hb]
  · intro hn
    simp only [getBootstrapData, hn]
  · intro n msg hn hs
    simp only [getBootstrapData, hn, hs]
  · intro n data hn hs hl
    simp only [getBootstrapData, hn, hs, hl]

/-- Witness for C6 at a concrete scope whose secret fetch fails. -/
theorem C6_payload_retrieval_failure_witness :
    ({ sampleScope with getSecret := Except.error "secrets \"m\" not found" } :
        MachineScope).status.bootstrapDataProvided.getD false = false ∧
    vmHasMacAddresses { sampleScope with getSecret := Except.error "secrets \"m\" not found" } = true ∧
    getBootstrapData { sampleScope with getSecret := Except.error "secrets \"m\" not found" } =
      Except.error "failed to retrieve bootstrap data secret: secrets \"m\" not found" ∧
    reconcileBootstrapData { sampleScope with getSecret := Except.error "secrets \"m\" not found" } =
      { requeue := false,
        err := some "failed to retrieve bootstrap data secret: secrets \"m\" not found",
        status := markFalse sampleScope.status CondReason.cloningFailed CondSeverity.warning
          "failed to retrieve bootstrap data secret: secrets \"m\" not found",
        events := [Event.secretFetch] } :=
  ⟨rfl, rfl, rfl,
   (C6_payload_retrieval_failure
      { sampleScope with getSecret := Except.error "secrets \"m\" not found" }
      rfl rfl rfl _ rfl).1⟩

/-- A scope with both address families configured for the default device; the
address lookup answers per family, the MAC table has one entry for net0. -/
def dualStackScope : MachineScope :=
  { sampleScope with
    cluster := { ipv4Config := true, ipv6Config := true,
                 dnsServers := ["8.8.8.8", "8.8.4.4"] },
    findIPAddr := fun d =>
      if d = DefaultNetworkDeviceIPV6 then
        Except.ok { address := "2001:db8::2", prefixLen := 64, gateway := "2001:db8::1" }
      else
        Except.ok { address := "10.10.10.12", prefixLen := 24, gateway := "10.10.10.1" } }

/-- The IPv4 resolution of the default device in dualStackScope. -/
def dualConf4 : NetworkConfigData :=
  { macAddress := "92:60:a0:5b:22:c2", ipAddress := "10.10.10.12/24",
    gateway := "10.10.10.1", dnsServers := ["8.8.8.8", "8.8.4.4"] }

/-- The IPv6 resolution of the default device in dualStackScope. -/
def dualConf6 : NetworkConfigData :=
  { macAddress := "92:60:a0:5b:22:c2", ipAddress := "2001:db8::2/64",
    gateway := "2001:db8::1", dnsServers := ["8.8.8.8", "8.8.4.4"] }

/-- C3: with both an IPv4 and an IPv6 pool configured for the default device
and both families resolving, equal MAC addresses give exactly one merged
record (IPv4 fields with the IPv6 address and gateway folded in), differing
MAC addresses give the dual-stack inconsistency error with no partial
record, and an IPv4 resolution without a MAC leaves the IPv6 resolution
standing alone. -/
theorem C3_dual_stack_default_device (s : MachineScope)
    (h4 : s.cluster.ipv4Config = true) (h6 : s.cluster.ipv6Config = true)
    (conf4 conf6 : NetworkConfigData)
    (r4 : getNetworkConfigDataForDevice s DefaultNetworkDeviceIPV4 = Except.ok conf4)
    (r6 : getNetworkConfigDataForDevice s DefaultNetworkDeviceIPV6 = Except.ok conf6) :
    (conf4.macAddress = conf6.macAddress →
      getDefaultNetworkDevice s =
        Except.ok
          [{ conf4 with ipv6Address := conf6.ipAddress, gateway6 := conf6.gateway }]) ∧
    (conf4.macAddress ≠ conf6.macAddress →
      getDefaultNetworkDevice s =
        Except.error "default network device ipv4 and ipv6 have different mac addresses") ∧
    (conf4.macAddress = "" →
      getDefaultNetworkDevice s = Except.ok [conf6]) := by
  have hm4 := resolver_mac_nonempty s DefaultNetworkDeviceIPV4 r4
  refine ⟨?_, ?_, ?_⟩
  · intro heq
    have hm4' : (conf6.macAddress.length == 0) = false := heq ▸ hm4
    simp only [getDefaultNetworkDevice, h4, if_true, r4, h6, r6, hm4, hm4',
      Bool.false_eq_true, if_false, heq, bne_self_eq_false]
  · intro hne
    have hbne : (conf4.macAddress != conf6.macAddress) = true := bne_iff_ne.mpr hne
    simp only [getDefaultNetworkDevice, h4, if_true, r4, h6, r6, hm4,
      Bool.false_eq_true, if_false, hbne]
  · intro hemp
    simp only [getDefaultNetworkDevice, h4, if_true, r4, h6, r6, hemp]
    simp

/-- Witness for C3 with both families resolving to the same MAC: the one
merged record. -/
theorem C3_dual_stack_default_device_witness :
    dualStackScope.cluster.ipv4Config = true ∧
    dualStackScope.cluster.ipv6Config = true ∧
    getNetworkConfigDataForDevice dualStackScope DefaultNetworkDeviceIPV4 =
      Except.ok dualConf4 ∧
    getNetworkConfigDataForDevice dualStackScope DefaultNetworkDeviceIPV6 =
      Except.ok dualConf6 ∧
    dualConf4.macAddress = dualConf6.macAddress ∧
    getDefaultNetworkDevice dualStackScope =
      Except.ok
        [{ dualConf4 with ipv6Address := dualConf6.ipAddress, gateway6 := dualConf6.gateway }] :=
  ⟨rfl, rfl, rfl, rfl, rfl,
   (C3_dual_stack_default_device dualStackScope rfl rfl dualConf4 dualConf6
      rfl rfl).1 rfl⟩

/-- An additional device spec with a DNS override and only an IPv4 pool. -/
def overrideNic4 : AdditionalDevice :=
  { name := "net1", ipv4PoolRef := true, ipv6PoolRef := false,
    dnsServers := ["1.1.1.1"] }

/-- The same additional device spec with only an IPv6 pool. -/
def overrideNic6 : AdditionalDevice :=
  { name := "net1", ipv4PoolRef := false, ipv6PoolRef := true,
    dnsServers := ["1.1.1.1"] }

/-- The same additional device spec with both pools. -/
def overrideNicDual : AdditionalDevice :=
  { name := "net1", ipv4PoolRef := true, ipv6PoolRef := true,
    dnsServers := ["1.1.1.1"] }

/-- A scope whose MAC table also has the additional device net1. -/
def overrideScope : MachineScope :=
  { sampleScope with
    nets := [("net0", "92:60:a0:5b:22:c2"), ("net1", "b4:87:18:bf:a3:60")] }

/-- C2, evaluated at the failing input: an additional device with DNS override
["1.1.1.1"] and only an IPv4 pool reference (or only an IPv6 one) is emitted
with the cluster-wide DNS list ["8.8.8.8", "8.8.4.4"], not the override —
the override assignment in the source is discarded when `config` is
overwritten with the freshly resolved record — while the same device with
both pool references keeps the override. -/
theorem C2_dns_override_dropped_single_family :
    overrideNic4.dnsServers = ["1.1.1.1"] ∧
    getAdditionalNetworkDevices overrideScope { additionalDevices := [overrideNic4] } =
      Except.ok [{ macAddress := "b4:87:18:bf:a3:60", ipAddress := "10.10.10.12/24",
                   gateway := "10.10.10.1", ipv6Address := "", gateway6 := "",
                   dnsServers := ["8.8.8.8", "8.8.4.4"] }] ∧
    getAdditionalNetworkDevices overrideScope { additionalDevices := [overrideNic6] } =
      Except.ok [{ macAddress := "b4:87:18:bf:a3:60", ipAddress := "10.10.10.12/24",
                   gateway := "10.10.10.1", ipv6Address := "", gateway6 := "",
                   dnsServers := ["8.8.8.8", "8.8.4.4"] }] ∧
    getAdditionalNetworkDevices overrideScope { additionalDevices := [overrideNicDual] } =
      Except.ok [{ macAddress := "b4:87:18:bf:a3:60", ipAddress := "10.10.10.12/24",
                   gateway := "10.10.10.1", ipv6Address := "10.10.10.12/24",
                   gateway6 := "10.10.10.1", dnsServers := ["1.1.1.1"] }] :=
  ⟨rfl, rfl, rfl, rfl⟩

/-- Devices that validate cleanly do not decide `findSome? validateNic`. -/
theorem findSome_validate_append (pre : List NetworkConfigData)
    (hpre : ∀ x ∈ pre, validateNic x = none) (l : List NetworkConfigData) :
    (pre ++ l).findSome? validateNic = l.findSome? validateNic := by
  induction pre with
  | nil => rfl
  | cons a as ih =>
    have ha : validateNic a = none := hpre a (by simp)
    have ih' := ih (fun x hx => hpre x (by simp [hx]))
    simp [List.findSome?_cons, ha, ih']

/-- The renderer fails with the first rule its first invalid device violates,
devices being validated in input order. -/
theorem render_first_violation (pre : List NetworkConfigData)
    (d : NetworkConfigData) (rest : List NetworkConfigData)
    (e : NetworkConfigError)
    (hpre : ∀ x ∈ pre, validateNic x = none)
    (hd : validateNic d = some e) :
    renderNetworkConfig (pre ++ d :: rest) = Except.error e := by
  have hne : (pre ++ d :: rest).isEmpty = false := by cases pre <;> rfl
  unfold renderNetworkConfig validateNics
  rw [hne, findSome_validate_append pre hpre]
  simp [List.findSome?_cons, hd]

/-- C4: the renderer fails with ErrMissingNetworkConfigData on the empty
device list; for each device, in input order (all earlier devices valid),
it fails with ErrMissingMacAddress when the MAC is empty (other fields
arbitrary: the MAC check is first), ErrMissingIPAddress when neither address
is present, ErrMalformedIPAddress when a present address lacks a slash
prefix (even with the gateway also absent: validation stops at the first
violated rule), and ErrMissingGateway when an address is present without its
corresponding gateway. -/
theorem C4_renderer_validation_order :
    renderNetworkConfig ([] : List NetworkConfigData) =
      Except.error NetworkConfigError.missingNetworkConfigData ∧
    (∀ pre d rest, (∀ x ∈ pre, validateNic x = none) →
      d.macAddress = "" →
      renderNetworkConfig (pre ++ d :: rest) =
        Except.error NetworkConfigError.missingMacAddress) ∧
    (∀ pre d rest, (∀ x ∈ pre, validateNic x = none) →
      d.macAddress ≠ "" → d.ipAddress = "" → d.ipv6Address = "" →
      renderNetworkConfig (pre ++ d :: rest) =
        Except.error NetworkConfigError.missingIPAddress) ∧
    (∀ pre d rest, (∀ x ∈ pre, validateNic x = none) →
      d.macAddress ≠ "" → d.ipAddress ≠ "" → hasCIDRSlash d.ipAddress = false →
      renderNetworkConfig (pre ++ d :: rest) =
        Except.error NetworkConfigError.malformedIPAddress) ∧
    (∀ pre d rest, (∀ x ∈ pre, validateNic x = none) →
      d.macAddress ≠ "" → d.ipAddress ≠ "" → hasCIDRSlash d.ipAddress = true →
      d.gateway = "" →
      renderNetworkConfig (pre ++ d :: rest) =
        Except.error NetworkConfigError.missingGateway) ∧
    (∀ pre d rest, (∀ x ∈ pre, validateNic x = none) →
      d.macAddress ≠ "" → d.ipAddress = "" → d.ipv6Address ≠ "" →
      hasCIDRSlash d.ipv6Address = false →
      renderNetworkConfig (pre ++ d :: rest) =
        Except.error NetworkConfigError.malformedIPAddress) ∧
    (∀ pre d rest, (∀ x ∈ pre, validateNic x = none) →
      d.macAddress ≠ "" → d.ipAddress = "" → d.ipv6Address ≠ "" →
      hasCIDRSlash d.ipv6Address = true → d.gateway6 = "" →
      renderNetworkConfig (pre ++ d :: rest) =
        Except.error NetworkConfigError.missingGateway) := by
  refine ⟨rfl, ?_, ?_, ?_, ?_, ?_, ?_⟩
  · intro pre d rest hpre hmac
    exact render_first_violation pre d rest _ hpre (by simp [validateNic, hmac])
  · intro pre d rest hpre hmac hip hip6
    exact render_first_violation pre d rest _ hpre
      (by simp [validateNic, hmac, hip, hip6])
  · intro pre d rest hpre hmac hip hslash
    exact render_first_violation pre d rest _ hpre
      (by simp [validateNic, hmac, hip, hslash])
  · intro pre d rest hpre hmac hip hslash hgw
    exact render_first_violation pre d rest _ hpre
      (by simp [validateNic, hmac, hip, hslash, hgw])
  · intro pre d rest hpre hmac hip hip6 hslash
    exact render_first_violation pre d rest _ hpre
      (by simp [validateNic, hmac, hip, hip6, hslash])
  · intro pre d rest hpre hmac hip hip6 hslash hgw6
    exact render_first_violation pre d rest _ hpre
      (by simp [validateNic, hmac, hip, hip6, hslash, hgw6])

/-- Witness for C4: a valid first device followed by a device with an empty
MAC but otherwise complete data fails with the missing-MAC error; a first
device with a bare address and no gateway fails with the malformed-address
error (the gateway rule is never reached). -/
theorem C4_renderer_validation_order_witness :
    renderNetworkConfig
      [{ macAddress := "92:60:a0:5b:22:c2", ipAddress := "10.10.10.12/24",
         gateway := "10.10.10.1", dnsServers := ["8.8.8.8", "8.8.4.4"] },
       { ipAddress := "10.10.10.11/24", gateway := "10.10.10.1" }] =
      Except.error NetworkConfigError.missingMacAddress ∧
    renderNetworkConfig
      [{ macAddress := "92:60:a0:5b:22:c2", ipAddress := "10.10.10.115" }] =
      Except.error NetworkConfigError.malformedIPAddress :=
  ⟨C4_renderer_validation_order.2.1
      [{ macAddress := "92:60:a0:5b:22:c2", ipAddress := "10.10.10.12/24",
         gateway := "10.10.10.1", dnsServers := ["8.8.8.8", "8.8.4.4"] }]
      { ipAddress := "10.10.10.11/24", gateway := "10.10.10.1" } []
      (by decide) rfl,
   C4_renderer_validation_order.2.2.2.1
      [] { macAddress := "92:60:a0:5b:22:c2", ipAddress := "10.10.10.115" } []
      (by decide) (by decide) (by decide) rfl⟩

set_option maxRecDepth 100000 in
/-- C9: the renderer maps the single-device input with MAC 92:60:a0:5b:22:c2,
address 10.10.10.12/24, gateway 10.10.10.1 and DNS servers [8.8.8.8, 8.8.4.4]
byte-for-byte to the expected document (one eth0 interface, dhcp4 as the
quoted literal, one address, one default route, a nameserver block with both
entries in order), and the same input without DNS servers to the identical
document with the nameserver block omitted entirely. -/
theorem C9_single_device_render :
    renderNetworkConfig
      [{ macAddress := "92:60:a0:5b:22:c2", ipAddress := "10.10.10.12/24",
         gateway := "10.10.10.1", dnsServers := ["8.8.8.8", "8.8.4.4"] }] =
      Except.ok ("network:\n  version: 2\n  renderer: networkd\n  ethernets:\n"
        ++ "    eth0:\n      match:\n        macaddress: 92:60:a0:5b:22:c2\n"
        ++ "      dhcp4: 'no'\n      addresses:\n        - 10.10.10.12/24\n"
        ++ "      routes:\n        - to: default\n          via: 10.10.10.1\n"
        ++ "      nameservers:\n        addresses:\n          - 8.8.8.8\n"
        ++ "          - 8.8.4.4") ∧
    renderNetworkConfig
      [{ macAddress := "92:60:a0:5b:22:c2", ipAddress := "10.10.10.12/24",
         gateway := "10.10.10.1" }] =
      Except.ok ("network:\n  version: 2\n  renderer: networkd\n  ethernets:\n"
        ++ "    eth0:\n      match:\n        macaddress: 92:60:a0:5b:22:c2\n"
        ++ "      dhcp4: 'no'\n      addresses:\n        - 10.10.10.12/24\n"
        ++ "      routes:\n        - to: default\n          via: 10.10.10.1") :=
  ⟨rfl, rfl⟩

end Capmox
